import Mathlib

set_option maxRecDepth 8000

/-!
Verification of the helloworld HTTP server (src/main.go) against its
specification. The Go program is shallowly embedded: each handler and
middleware becomes a pure Lean function over explicit inputs (header values,
template-read results, probe results, the liveness flag value), the signal
wiring and the lifecycle of `main` become explicit data (signal lists, an
event trace), and the external Go standard library / redis client behaviours
that the code relies on are modelled only to the extent their documented
contracts are needed.
-/

namespace HelloWorld

/-! ### String helpers (Go `strings` package behaviour on character lists) -/

/-- Model of Go `strings.Replace(s, old, new, -1)` on character lists: scan
left to right, replacing non-overlapping occurrences of `old`; the fuel
argument (instantiated with the length of the scanned list, which bounds the
number of scan steps) makes the recursion structural. `old` is non-empty at
every call site in this development, matching the Go program. -/
def goReplaceChars (old new : List Char) : Nat → List Char → List Char
  | 0, s => s
  | _ + 1, [] => []
  | fuel + 1, c :: rest =>
    if old.isPrefixOf (c :: rest) then
      new ++ goReplaceChars old new fuel ((c :: rest).drop old.length)
    else
      c :: goReplaceChars old new fuel rest

/-- Model of Go `strings.Replace(s, old, new, -1)` on strings. -/
def stringsReplaceAll (s old new : String) : String :=
  String.mk (goReplaceChars old.data new.data s.data.length s.data)

/-- Whether `pat` occurs as a contiguous sublist of the second argument
(Go `strings.Contains`). -/
def containsChars (pat : List Char) : List Char → Bool
  | [] => pat.isPrefixOf ([] : List Char)
  | c :: rest => pat.isPrefixOf (c :: rest) || containsChars pat rest

/-- Whether `pat` occurs as a substring of `s`. -/
def strContains (s pat : String) : Bool := containsChars pat.data s.data

/-- Whether `p` is a prefix of `s` (Go `strings.HasPrefix`). -/
def strHasPrefixOf (p s : String) : Bool := p.data.isPrefixOf s.data

/-! ### HTTP responses -/

/-- An HTTP response as observed by a client: status code and body. A body of
`""` models a handler that writes no body bytes. -/
structure HttpResponse where
  status : Nat
  body : String
deriving DecidableEq

/-- Status sent by `net/http` when a handler writes without calling
`WriteHeader` (the page handler in src/main.go never calls it). -/
def defaultOKStatus : Nat := 200

/-! ### Page handler (src/main.go `handler`) -/

/-- The placeholder token substituted by the page handler
(braces written with hex escapes). -/
def placeholder : String := "\x7b\x7bLEAD\x7d\x7d"

/-- The two fixed greeting strings chosen by the probe result, transcribed
from src/main.go `handler`. -/
def leadContent (probeResult : Bool) : String :=
  if probeResult then
    "This is a simple service application(connected to Redis). Deployed by Cloud 66 ~"
  else
    "This is a simple single service application. Deployed by Cloud 66"

/-- Shallow embedding of src/main.go `handler`: `templateRead` is the result
of `ioutil.ReadFile("./static/index.html")` (`none` on read error, in which
case the Go code's ignored error leaves `contentBytes` nil, i.e. the empty
string); the placeholder is replaced everywhere by the greeting chosen by the
probe result, and the result is written with the default status. -/
def handler (templateRead : Option String) (probeResult : Bool) : HttpResponse :=
  let content := templateRead.getD ""
  { status := defaultOKStatus,
    body := stringsReplaceAll content placeholder (leadContent probeResult) }

/-- Modelled from the spec: the static template file `static/index.html` is a
repository asset not present under src/; per the spec the page template is an
HTML document containing the placeholder token, which the handler substitutes
with the greeting line. -/
def indexTemplate : String := "<html><body><h1>\x7b\x7bLEAD\x7d\x7d</h1></body></html>"

/-! ### Health handler (src/main.go `healthz`) -/

/-- Shallow embedding of src/main.go `healthz`: given the value loaded from
the atomic `healthy` flag, write status 204 if it equals 1, else 503; no body
is written in either case. -/
def healthz (healthyFlag : Int) : HttpResponse :=
  if healthyFlag = 1 then { status := 204, body := "" }
  else { status := 503, body := "" }

/-! ### Connectivity probe (src/main.go `testRedisConnection`) -/

/-- Modelled from the spec: the cache client library is an out-of-scope black
box whose ping either yields a reply string or fails with an error; the Go
binding `client.Ping().Result()` returns the pair (reply, error), with an
empty reply when the command errors. -/
def pingResult : Except Unit String → String × Bool
  | Except.ok s => (s, false)
  | Except.error _ => ("", true)

/-- Shallow embedding of src/main.go `testRedisConnection`: the error
component of `Result()` is discarded (`pong, _ := ...`), and the function
returns whether the reply equals "PONG". -/
def testRedisConnection (r : Except Unit String) : Bool :=
  let pong := (pingResult r).1
  pong == "PONG"

/-! ### Request-id middleware (src/main.go `tracing`) -/

/-- Go `http.Header.Get`: the empty string stands for an absent header, so an
absent header and a header carrying the empty value are indistinguishable. -/
def headerGet (h : Option String) : String := h.getD ""

/-- What the tracing middleware sets: the `X-Request-Id` response
header and the request-context value under `requestIDKey`. -/
structure TracedOutcome where
  responseHeader : String
  ctxRequestID : String
deriving DecidableEq

/-- Shallow embedding of src/main.go `tracing`: read the inbound
`X-Request-Id` header; if it is empty, use the freshly generated id; set the
same value on the response header and on the request context. -/
def tracing (inboundHeader : Option String) (freshID : String) : TracedOutcome :=
  let requestID := headerGet inboundHeader
  let requestID := if requestID = "" then freshID else requestID
  { responseHeader := requestID, ctxRequestID := requestID }

/-! ### Logging middleware (src/main.go `logging`) -/

/-- One structured log line, with the fields printed by src/main.go
`logging`: request id, method, path, remote address, user agent. -/
structure LogLine where
  requestID : String
  method : String
  path : String
  remoteAddr : String
  userAgent : String
deriving DecidableEq

/-- Outcome of running the wrapped handler: it either completes normally or
fails (panic / unwind). -/
inductive HandlerOutcome
  | completed
  | panicked
deriving DecidableEq

/-- How a post-action is registered around the wrapped handler: as a Go
`defer` (runs on every exit path, including unwinding) or as a plain
sequential call after the handler (skipped when the handler fails). -/
inductive HookStyle
  | deferredHook
  | sequentialHook
deriving DecidableEq

/-- The registration style used by src/main.go `logging`: the log statement
is inside `defer func() \x7b ... \x7d()`. -/
def loggingHookStyle : HookStyle := HookStyle.deferredHook

/-- Log lines emitted by a post-action registered with the given style,
given the wrapped handler's outcome. -/
def emittedLines (style : HookStyle) (line : LogLine) (outcome : HandlerOutcome) : List LogLine :=
  match style, outcome with
  | HookStyle.deferredHook, _ => [line]
  | HookStyle.sequentialHook, HandlerOutcome.completed => [line]
  | HookStyle.sequentialHook, HandlerOutcome.panicked => []

/-- The line built by src/main.go `logging`: the context value under
`requestIDKey` when it is a string, else the sentinel "unknown", followed by
method, path, remote address and user agent. -/
def loggingLine (ctxRequestID : Option String) (method path remoteAddr userAgent : String) : LogLine :=
  { requestID := ctxRequestID.getD "unknown",
    method := method, path := path,
    remoteAddr := remoteAddr, userAgent := userAgent }

/-- Shallow embedding of src/main.go `logging`: the log lines produced for
one request, as a function of the context request id, the request fields and
the wrapped handler's outcome. -/
def logging (ctxRequestID : Option String) (method path remoteAddr userAgent : String)
    (outcome : HandlerOutcome) : List LogLine :=
  emittedLines loggingHookStyle (loggingLine ctxRequestID method path remoteAddr userAgent) outcome

/-! ### Router (src/main.go `main`, ServeMux registrations) -/

/-- Where the mux sends a request. `healthCheck` is a possible target only in
the sense that the program defines a health handler; the dispatch function
below, translated from the registrations in `main`, never selects it. -/
inductive Target
  | staticFile
  | page
  | healthCheck
  | notFound
deriving DecidableEq

/-- Shallow embedding of the Go 1.x `http.ServeMux` match over the patterns
registered in src/main.go `main` ("/style.css", "/background.jpg", "/"): a
pattern without a trailing slash matches only the exact path, the pattern "/"
matches every path it prefixes, and an unmatched path gets the mux's
not-found handler. ServeMux patterns carry no method, so the method argument
is ignored. -/
def routerDispatch (_method path : String) : Target :=
  if path = "/style.css" then Target.staticFile
  else if path = "/background.jpg" then Target.staticFile
  else if strHasPrefixOf "/" path then Target.page
  else Target.notFound

/-! ### Signal wiring (src/main.go `main`) -/

/-- The two termination signals the spec speaks about. -/
inductive Sig
  | interrupt
  | sigterm
deriving DecidableEq

/-- Signals registered on the `cancel` channel:
`signal.Notify(cancel, os.Interrupt, syscall.SIGTERM)`. No goroutine ever
receives from `cancel`. -/
def cancelChannelSignals : List Sig := [Sig.interrupt, Sig.sigterm]

/-- Signals registered on the `quit` channel:
`signal.Notify(quit, os.Interrupt)`. The shutdown goroutine blocks on
`<-quit`. -/
def quitChannelSignals : List Sig := [Sig.interrupt]

/-- A signal triggers the graceful-shutdown goroutine exactly when it is
delivered to the `quit` channel the goroutine reads from. -/
def triggersShutdown (s : Sig) : Bool := quitChannelSignals.contains s

/-- The steps the shutdown goroutine performs, in order, once woken. -/
inductive DrainStep
  | storeHealthyFalse
  | disableKeepAlives
  | shutdownWithDeadline (seconds : Nat)
deriving DecidableEq

/-- Shallow embedding of the body of the shutdown goroutine in src/main.go:
store 0 into the liveness flag, disable keep-alives, call `Shutdown` under a
30-second context deadline. -/
def shutdownSequence : List DrainStep :=
  [DrainStep.storeHealthyFalse, DrainStep.disableKeepAlives,
   DrainStep.shutdownWithDeadline 30]

/-! ### Lifecycle trace (src/main.go `main`) -/

/-- Observable events of one full run of `main`, in program order. -/
inductive LifeEv
  | storeHealthy (v : Bool)
  | listenStart
  | serveRequest
  | signalReceived
  | disableKeepAlives
  | shutdownCall
  | processExit
deriving DecidableEq

/-- The event trace of a run of src/main.go `main` that serves one request
and then receives an interrupt: the flag is stored true, then
`ListenAndServe` starts accepting; after the signal the shutdown goroutine
stores false, disables keep-alives and calls `Shutdown`; the process exits.
The flag starts at the zero value (false). -/
def lifecycleTrace : List LifeEv :=
  [LifeEv.storeHealthy true, LifeEv.listenStart, LifeEv.serveRequest,
   LifeEv.signalReceived, LifeEv.storeHealthy false,
   LifeEv.disableKeepAlives, LifeEv.shutdownCall, LifeEv.processExit]

/-- Value of the liveness flag after the given events: the last value
stored, starting from the zero value false. -/
def healthyAfter (t : List LifeEv) : Bool :=
  t.foldl (fun h e => match e with | LifeEv.storeHealthy v => v | _ => h) false

/-- Whether the listener has begun accepting connections after the given
events. -/
def listenerReadyAfter (t : List LifeEv) : Bool :=
  t.contains LifeEv.listenStart

/-- Number of stores to the liveness flag in the given events. -/
def healthyWrites (t : List LifeEv) : Nat :=
  t.countP (fun e => match e with | LifeEv.storeHealthy _ => true | _ => false)

/-! ### Shutdown error handling (src/main.go `main`, shutdown goroutine) -/

/-- Possible non-nil results of `server.Shutdown(ctx)`. -/
inductive ShutdownErr
  | deadlineExceeded
  | closeFailed
deriving DecidableEq

/-- Modelled from the Go `net/http` contract for `Server.Shutdown(ctx)`
(library code, outside src/): it returns nil once the in-flight requests
drain, returns the context's error (deadline exceeded) if the 30-second
deadline elapses first, and can return a listener-close error. -/
def shutdownResult (drainSeconds : Nat) (closeErr : Bool) : Option ShutdownErr :=
  if closeErr then some ShutdownErr.closeFailed
  else if drainSeconds ≤ 30 then none
  else some ShutdownErr.deadlineExceeded

/-- How the process ends. -/
inductive ProcessOutcome
  | exitZero
  | fatalNonZero
deriving DecidableEq

/-- Shallow embedding of the error branch in the shutdown goroutine: any
non-nil error from `Shutdown` hits `logger.Fatalf` (exit status 1); a nil
error closes `done`, letting `main` log "Server stopped" and return (exit
status 0). -/
def shutdownBranch (r : Option ShutdownErr) : ProcessOutcome :=
  match r with
  | none => ProcessOutcome.exitZero
  | some _ => ProcessOutcome.fatalNonZero

/-! ### Claim theorems -/

/-- Claim C1: the spec claims the HTTP surface exposes a health endpoint
whose handler returns 204 when the liveness flag is true and 503 when it is
false, with no body. The program defines such a handler (`healthz`) with
exactly that behaviour, but never registers it on the router: no path at all
dispatches to it, and the health-check path goes to the page handler
instead. -/
theorem C1_healthz_defined_but_unrouted :
    routerDispatch "GET" "/healthz" = Target.page ∧
    (∀ method path : String, (routerDispatch method path == Target.healthCheck) = false) ∧
    healthz 1 = { status := 204, body := "" } ∧
    healthz 0 = { status := 503, body := "" } := by
  refine ⟨by decide, ?_, by decide, by decide⟩
  intro m p
  unfold routerDispatch
  split
  · decide
  split
  · decide
  split
  · decide
  · decide

/-- Claim C2: the spec claims SIGINT and SIGTERM both trigger graceful
shutdown. In the code, SIGTERM is registered only on the never-read `cancel`
channel, while the shutdown goroutine waits on `quit`, which is notified for
interrupt only — so SIGTERM does not trigger the shutdown sequence. The
sequence itself (flag false, keep-alives off, 30-second bounded shutdown) is
as claimed. -/
theorem C2_sigterm_never_triggers_shutdown :
    triggersShutdown Sig.interrupt = true ∧
    triggersShutdown Sig.sigterm = false ∧
    Sig.sigterm ∈ cancelChannelSignals ∧
    shutdownSequence = [DrainStep.storeHealthyFalse, DrainStep.disableKeepAlives,
      DrainStep.shutdownWithDeadline 30] := by
  refine ⟨by decide, by decide, by decide, rfl⟩

/-- Claim C3 counterexample: after the first event of the lifecycle trace
(the store of true), the liveness flag is already true although the listener
is not yet ready to accept connections, refuting "the flag is false at every
point before the listener is ready". -/
theorem C3_flag_true_before_listener_ready :
    healthyAfter (lifecycleTrace.take 1) = true ∧
    listenerReadyAfter (lifecycleTrace.take 1) = false := by
  decide

/-- Claim C3 (amended): in the lifecycle trace the liveness flag is true
exactly from the store that immediately precedes the listen step until the
store of false performed by the shutdown goroutine (events 1 through 4), so
there is exactly one point where the flag is true before the listener is
ready; the flag is written exactly twice in the run. -/
theorem C3_flag_lifecycle :
    (∀ k : Nat, healthyAfter (lifecycleTrace.take k) = decide (1 ≤ k ∧ k ≤ 4)) ∧
    healthyWrites lifecycleTrace = 2 ∧
    listenerReadyAfter (lifecycleTrace.take 1) = false := by
  refine ⟨?_, by decide, by decide⟩
  intro k
  by_cases h : k ≤ 8
  · interval_cases k <;> decide
  · have hlen : lifecycleTrace.length ≤ k := by
      have h8 : lifecycleTrace.length = 8 := rfl
      omega
    rw [List.take_of_length_le hlen]
    have hk : decide (1 ≤ k ∧ k ≤ 4) = false := by
      rw [decide_eq_false_iff_not]; omega
    rw [hk]; decide

/-- Claim C4 counterexample: when draining takes longer than the 30-second
deadline, `Shutdown` returns the deadline-exceeded error, and the code's
error branch treats it as fatal — the process terminates non-zero, not
cleanly as the claim states. -/
theorem C4_timeout_is_fatal :
    shutdownResult 31 false = some ShutdownErr.deadlineExceeded ∧
    shutdownBranch (shutdownResult 31 false) = ProcessOutcome.fatalNonZero := by
  decide

/-- Claim C4 (amended): the process exits cleanly exactly when graceful
shutdown completes within the 30-second deadline without a shutdown error;
every non-nil result of `Shutdown`, the deadline-exceeded timeout included,
is treated as fatal and terminates the process with a non-zero outcome. -/
theorem C4_shutdown_error_handling :
    ∀ (drainSeconds : Nat) (closeErr : Bool),
      shutdownBranch (shutdownResult drainSeconds closeErr) = ProcessOutcome.exitZero ↔
        (closeErr = false ∧ drainSeconds ≤ 30) := by
  intro d c
  cases c
  · by_cases h : d ≤ 30
    · simp [shutdownResult, shutdownBranch, h]
    · simp [shutdownResult, shutdownBranch, h]
  · simp [shutdownResult, shutdownBranch]

/-- Claim C5: for each probe result, the rendered page body contains the
connected-variant substring exactly when the probe returns true, contains
the standalone-variant substring exactly when it returns false, and never
contains the placeholder token. -/
theorem C5_page_greeting_variants :
    ∀ probeResult : Bool,
      strContains (handler (some indexTemplate) probeResult).body "connected to Redis"
        = probeResult ∧
      strContains (handler (some indexTemplate) probeResult).body "single service application"
        = (!probeResult) ∧
      strContains (handler (some indexTemplate) probeResult).body placeholder = false := by
  intro p
  cases p <;> exact ⟨by decide, by decide, by decide⟩

/-- Claim C6 counterexample: a request carrying the `X-Request-Id` header
with the empty value V = "" is not echoed unchanged — `Header.Get` cannot
distinguish an empty value from an absent header, so the middleware installs
the freshly generated id instead of V. -/
theorem C6_empty_header_value_not_echoed :
    (tracing (some "") "1700000000000000001").responseHeader = "1700000000000000001" ∧
    ("1700000000000000001" == "") = false := by
  decide

/-- Claim C6 (amended): every request carrying a non-empty `X-Request-Id`
value V gets V echoed on the response header and attached to the context
unchanged; a request without the header, or with an empty value, gets the
freshly generated identifier on both instead. -/
theorem C6_request_id_propagation :
    (∀ V freshID : String, V ≠ "" →
      tracing (some V) freshID = { responseHeader := V, ctxRequestID := V }) ∧
    (∀ freshID : String,
      tracing none freshID = { responseHeader := freshID, ctxRequestID := freshID }) ∧
    (∀ freshID : String,
      tracing (some "") freshID = { responseHeader := freshID, ctxRequestID := freshID }) := by
  refine ⟨?_, ?_, ?_⟩
  · intro V f h
    simp [tracing, headerGet, Option.getD, h]
  · intro f; rfl
  · intro f; rfl

/-- Claim C6 witness: a concrete non-empty header value is echoed on the
response header and the context. -/
theorem C6_request_id_propagation_witness :
    tracing (some "abc") "gen" = { responseHeader := "abc", ctxRequestID := "abc" } :=
  C6_request_id_propagation.1 "abc" "gen" (by decide)

/-- Claim C7: the connectivity probe returns true exactly when the handshake
reply is the acknowledgment "PONG"; every error and every other reply
collapse to false, and the probe is a total boolean function that surfaces
no error to its caller. -/
theorem C7_probe_true_iff_pong :
    ∀ r : Except Unit String, testRedisConnection r = true ↔ r = Except.ok "PONG" := by
  intro r
  cases r with
  | ok s => simp [testRedisConnection, pingResult]
  | error e =>
    cases e
    constructor
    · intro h; exact absurd h (by decide)
    · intro h; exact absurd h (by simp)

/-- Claim C8: when the template read fails the handler still answers with
the default 200 status and an empty body, and no template-read outcome ever
changes the status code. -/
theorem C8_template_read_failure_best_effort :
    (∀ probeResult : Bool, handler none probeResult = { status := 200, body := "" }) ∧
    (∀ (templateRead : Option String) (probeResult : Bool),
      (handler templateRead probeResult).status = 200) := by
  constructor
  · intro p; cases p <;> decide
  · intro t p; rfl

/-- Claim C9: the logging middleware emits exactly one log line per request,
carrying the context request id (or the sentinel "unknown" when absent),
method, path, remote address and user agent, and it emits that line even
when the wrapped handler fails, because it is registered as a deferred
action. -/
theorem C9_logging_exactly_once :
    ∀ (ctxRequestID : Option String) (method path remoteAddr userAgent : String)
      (outcome : HandlerOutcome),
      logging ctxRequestID method path remoteAddr userAgent outcome =
        [{ requestID := ctxRequestID.getD "unknown", method := method, path := path,
           remoteAddr := remoteAddr, userAgent := userAgent }] ∧
      (logging ctxRequestID method path remoteAddr userAgent outcome).length = 1 ∧
      logging none method path remoteAddr userAgent HandlerOutcome.panicked =
        [{ requestID := "unknown", method := method, path := path,
           remoteAddr := remoteAddr, userAgent := userAgent }] := by
  intro cid m p a ua oc
  refine ⟨?_, ?_, ?_⟩
  · cases oc <;> rfl
  · cases oc <;> rfl
  · rfl

/-- Claim C10: every request whose (canonical, slash-leading) path is
neither /style.css nor /background.jpg is dispatched to the page handler
regardless of HTTP method, the page handler answers with status 200, and
the router never selects the not-found handler for such a path. -/
theorem C10_router_catch_all :
    ∀ (methodA methodB path : String),
      strHasPrefixOf "/" path = true →
      path ≠ "/style.css" →
      path ≠ "/background.jpg" →
      routerDispatch methodA path = Target.page ∧
      routerDispatch methodB path = routerDispatch methodA path ∧
      (routerDispatch methodA path == Target.notFound) = false ∧
      (∀ (templateRead : Option String) (probeResult : Bool),
        (handler templateRead probeResult).status = 200) := by
  intro ma mb p hpre h1 h2
  have hd : routerDispatch ma p = Target.page := by
    unfold routerDispatch
    rw [if_neg h1, if_neg h2, if_pos hpre]
  refine ⟨hd, rfl, ?_, ?_⟩
  · rw [hd]; decide
  · intro t pr; rfl

/-- Claim C10 witness: a health-check path is dispatched to the page handler
for two different methods. -/
theorem C10_router_catch_all_witness :
    routerDispatch "GET" "/healthz" = Target.page ∧
    routerDispatch "POST" "/healthz" = routerDispatch "GET" "/healthz" :=
  ⟨(C10_router_catch_all "GET" "POST" "/healthz" (by decide) (by decide) (by decide)).1,
   (C10_router_catch_all "GET" "POST" "/healthz" (by decide) (by decide) (by decide)).2.1⟩

end HelloWorld
